import Mathlib

/-!
Shallow embedding of the `lzsnmp` SNMP agent OID registry, translated from
`agent.go` of the `liuzhen9320/snmp-go` repository.

Modelling conventions:
- Go `map[string]X` becomes an association list `List (String × X)` with at
  most one pair per key; `mapInsert`/`mapErase`/`mapLookup` mirror Go map
  assignment, `delete` and indexing (extensionally; the position of a newly
  assigned key in the list is irrelevant to every statement below).
- Static values (Go `interface` values) and dynamic handlers (Go
  `ValueHandler` closures) are opaque type parameters `V` and `H`.
- Invoking a handler is modelled world-passing style: an ambient
  `invoke : H → W → Except E V × W` gives the result and effect of calling
  the closure once in world `w`.  This lets "the producer is invoked exactly
  once per get, with no caching" be stated exactly.
- `a.server != nil` becomes the flag `serverStarted`; the slice
  `a.server.SubAgents[0].OIDs` of transport bindings becomes `serverOIDs`.
- The mutex discipline of the source is embedded separately as traces of
  `sync.RWMutex` events (`LockEv`) executed by the single goroutine that
  performs a registry call, with Go's documented blocking rules.
- Logging is out of scope (the log calls in the source have no effect on any
  state the claims mention).
-/

namespace LzSnmp

/-- BER type tags attached to registrations: the subset of `gosnmp.Asn1BER`
that the repository's README lists as supported. -/
inductive Asn1BER where
  | OctetString
  | Integer
  | Counter32
  | Counter64
  | Gauge32
  | TimeTicks
  | IPAddress
  deriving DecidableEq

/-- Configuration consumed by `NewAgent` (`Config` in `agent.go`).  `PEN` is
a Go `uint32`, modelled as `Nat`; the logger fields are out of scope. -/
structure Config where
  PEN : Nat
  ListenAddr : String
  Community : String
  deriving DecidableEq

/-- Go `map[string]X` as an association list with at most one pair per key. -/
abbrev SMap (α : Type) : Type := List (String × α)

/-- Go map indexing `v, ok := m[k]` (the `Option` is `ok`). -/
def mapLookup {α : Type} : SMap α → String → Option α
  | [], _ => none
  | p :: m, k => if p.1 = k then some p.2 else mapLookup m k

/-- Go `delete(m, k)`. -/
def mapErase {α : Type} : SMap α → String → SMap α
  | [], _ => []
  | p :: m, k => if p.1 = k then mapErase m k else p :: mapErase m k

/-- Go map assignment `m[k] = v`: at most one pair for `k` remains and it
holds `v`.  (The pair is placed at the end; Go maps are unordered and no
statement below depends on the position.) -/
def mapInsert {α : Type} (m : SMap α) (k : String) (v : α) : SMap α :=
  mapErase m k ++ [(k, v)]

/-- What the `OnGet` closure built by `registerHandlers` captures: the
`handlerCopy` of the dynamic branch (`agent.go` lines 245-258) or the
`valueCopy` of the static branch (lines 268-277). -/
inductive OnGetSrc (V H : Type) where
  | dynamic (handlerCopy : H)
  | static (valueCopy : V)
  deriving DecidableEq

/-- Whether a binding came from the static collection. -/
def OnGetSrc.isStaticB {V H : Type} : OnGetSrc V H → Bool
  | .dynamic _ => false
  | .static _ => true

/-- One transport binding (`GoSNMPServer.PDUValueControlItem` as filled in by
`registerHandlers`).  The Go field `Type` is called `TypeBER` here because
`Type` is reserved in Lean. -/
structure PDUValueControlItem (V H : Type) where
  OID : String
  TypeBER : Asn1BER
  src : OnGetSrc V H
  deriving DecidableEq

/-- The binding built for one dynamic entry (`agent.go` lines 245-258).  The
`Type` field is the literal `gosnmp.OctetString` from line 247; the type
supplied at registration is not stored in the registry and cannot appear
here. -/
def buildDynamicItem {V H : Type} (oid : String) (handler : H) : PDUValueControlItem V H :=
  { OID := oid, TypeBER := Asn1BER.OctetString, src := OnGetSrc.dynamic handler }

/-- The binding built for one static entry (`agent.go` lines 268-277), with
the literal `gosnmp.OctetString` from line 270. -/
def buildStaticItem {V H : Type} (oid : String) (value : V) : PDUValueControlItem V H :=
  { OID := oid, TypeBER := Asn1BER.OctetString, src := OnGetSrc.static value }

/-- The agent state (`Agent` in `agent.go`).  The source field `oidPrefix`
is called `oidRoot` here.  `serverStarted` models `a.server != nil`;
`serverOIDs` models `a.server.SubAgents[0].OIDs`. -/
structure Agent (V H : Type) where
  config : Config
  oidRoot : String
  handlers : SMap H
  staticVals : SMap V
  serverStarted : Bool
  serverOIDs : List (PDUValueControlItem V H)
  deriving DecidableEq

/-- `NewAgent` (`agent.go` lines 46-87): rejects a zero PEN, defaults the
listen address and community, and derives the enterprise prefix
`"1.3.6.1.4.1." + PEN` once. -/
def NewAgent {V H : Type} (cfg : Config) : Except String (Agent V H) :=
  if cfg.PEN = 0 then
    Except.error "PEN (Private Enterprise Number) is required"
  else
    Except.ok
      { config :=
          { PEN := cfg.PEN
            ListenAddr := if cfg.ListenAddr = "" then "0.0.0.0:161" else cfg.ListenAddr
            Community := if cfg.Community = "" then "public" else cfg.Community }
        oidRoot := "1.3.6.1.4.1." ++ Nat.repr cfg.PEN
        handlers := []
        staticVals := []
        serverStarted := false
        serverOIDs := [] }

/-- `registerHandlers` (`agent.go` lines 229-283): if the server exists, the
binding slice is cleared and rebuilt, one item per dynamic handler followed
by one item per static value.  Nothing but `serverOIDs` changes. -/
def registerHandlers {V H : Type} (a : Agent V H) : Agent V H :=
  if a.serverStarted then
    { a with serverOIDs :=
        a.handlers.map (fun p => buildDynamicItem p.1 p.2)
          ++ a.staticVals.map (fun p => buildStaticItem p.1 p.2) }
  else a

/-- `Start` success path (`agent.go` lines 90-126): installs a fresh master
agent whose sub-agent has an empty binding slice, then calls
`registerHandlers`.  (The UDP listen step is out of scope; this is the state
after `Start` has returned `nil`.) -/
def Start {V H : Type} (a : Agent V H) : Agent V H :=
  registerHandlers { a with serverStarted := true, serverOIDs := [] }

/-- `RegisterAbsolute` (`agent.go` lines 144-161).  The second component is
the Go return value, always `nil` (`none`).  The `oidType` argument is only
logged and then discarded, which is why it does not appear in the result. -/
def RegisterAbsolute {V H : Type} (a : Agent V H) (oid : String) (_oidType : Asn1BER)
    (handler : H) : Agent V H × Option String :=
  let a1 := { a with handlers := mapInsert a.handlers oid handler }
  (if a1.serverStarted then registerHandlers a1 else a1, none)

/-- `Register` (`agent.go` lines 138-141): prepends the enterprise prefix
and a dot, then delegates to `RegisterAbsolute`. -/
def Register {V H : Type} (a : Agent V H) (relativeOID : String) (oidType : Asn1BER)
    (handler : H) : Agent V H × Option String :=
  RegisterAbsolute a (a.oidRoot ++ "." ++ relativeOID) oidType handler

/-- `RegisterStaticAbsolute` (`agent.go` lines 170-187); always returns
`nil`, and the `oidType` argument is only logged. -/
def RegisterStaticAbsolute {V H : Type} (a : Agent V H) (oid : String) (_oidType : Asn1BER)
    (value : V) : Agent V H × Option String :=
  let a1 := { a with staticVals := mapInsert a.staticVals oid value }
  (if a1.serverStarted then registerHandlers a1 else a1, none)

/-- `RegisterStatic` (`agent.go` lines 164-167). -/
def RegisterStatic {V H : Type} (a : Agent V H) (relativeOID : String) (oidType : Asn1BER)
    (value : V) : Agent V H × Option String :=
  RegisterStaticAbsolute a (a.oidRoot ++ "." ++ relativeOID) oidType value

/-- `UnregisterAbsolute` (`agent.go` lines 196-226): deletes whichever of
the two entries exists; if neither existed, returns the error
`"OID not found: " ++ oid` and leaves everything untouched. -/
def UnregisterAbsolute {V H : Type} (a : Agent V H) (oid : String) :
    Agent V H × Option String :=
  let deletedHandler := (mapLookup a.handlers oid).isSome
  let deletedStatic := (mapLookup a.staticVals oid).isSome
  if deletedHandler || deletedStatic then
    let a1 := { a with handlers := mapErase a.handlers oid
                       staticVals := mapErase a.staticVals oid }
    (if a1.serverStarted then registerHandlers a1 else a1, none)
  else
    (a, some ("OID not found: " ++ oid))

/-- `Unregister` (`agent.go` lines 190-193). -/
def Unregister {V H : Type} (a : Agent V H) (relativeOID : String) :
    Agent V H × Option String :=
  UnregisterAbsolute a (a.oidRoot ++ "." ++ relativeOID)

/-- `GetPrefix` (`agent.go` lines 286-288), under the renamed field. -/
def GetOidRoot {V H : Type} (a : Agent V H) : String := a.oidRoot

/-- `ListOIDs` (`agent.go` lines 291-306): a fresh map receives the tag
`"dynamic"` for every dynamic OID and then `"static"` for every static OID;
a later assignment overwrites an earlier one, exactly as in the source. -/
def ListOIDs {V H : Type} (a : Agent V H) : SMap String :=
  let result := a.handlers.foldl (fun r p => mapInsert r p.1 "dynamic") []
  a.staticVals.foldl (fun r p => mapInsert r p.1 "static") result

/-- The tag `ListOIDs` reports for one OID. -/
def listTag {V H : Type} (a : Agent V H) (oid : String) : Option String :=
  mapLookup (ListOIDs a) oid

/-- How many entries (dynamic plus static) the registry holds for `oid`. -/
def countEntries {V H : Type} (a : Agent V H) (oid : String) : Nat :=
  (a.handlers.filter (fun p => decide (p.1 = oid))).length
    + (a.staticVals.filter (fun p => decide (p.1 = oid))).length

/-!
World-passing semantics of the `OnGet` callbacks.  `invoke handler w` is the
result and world effect of calling the Go closure `handler()` once in world
`w`; the registry itself never interprets the closure, it only forwards its
result, so `invoke` is a parameter.
-/

/-- One invocation of the `OnGet` callback of a binding (`agent.go` lines
248-257 for the dynamic branch, 271-274 for the static branch): the static
callback returns `valueCopy` with a `nil` error and touches nothing; the
dynamic callback calls `handlerCopy()` once and forwards its value or error
verbatim. -/
def runOnGet {V H W E : Type} (invoke : H → W → Except E V × W)
    (it : PDUValueControlItem V H) (w : W) : Except E V × W :=
  match it.src with
  | .static valueCopy => (Except.ok valueCopy, w)
  | .dynamic handlerCopy => invoke handlerCopy w

/-- `n` successive GET evaluations through the same binding, collecting the
results in order and threading the world. -/
def runGets {V H W E : Type} (invoke : H → W → Except E V × W)
    (it : PDUValueControlItem V H) : Nat → W → List (Except E V) × W
  | 0, w => ([], w)
  | n + 1, w =>
      let r := runOnGet invoke it w
      let rest := runGets invoke it n r.2
      (r.1 :: rest.1, rest.2)

/-- `n` direct invocations of the producer itself, with no registry in
between: the reference behaviour for "each get invokes the producer exactly
once per call and forwards its result with no caching". -/
def runProducer {V H W E : Type} (invoke : H → W → Except E V × W)
    (handler : H) : Nat → W → List (Except E V) × W
  | 0, w => ([], w)
  | n + 1, w =>
      let r := invoke handler w
      let rest := runProducer invoke handler n r.2
      (r.1 :: rest.1, rest.2)

/-- The static bindings the transport holds for `oid`. -/
def staticItemsFor {V H : Type} (a : Agent V H) (oid : String) :
    List (PDUValueControlItem V H) :=
  a.serverOIDs.filter (fun it => it.src.isStaticB && decide (it.OID = oid))

/-- The dynamic bindings the transport holds for `oid`. -/
def dynamicItemsFor {V H : Type} (a : Agent V H) (oid : String) :
    List (PDUValueControlItem V H) :=
  a.serverOIDs.filter (fun it => !it.src.isStaticB && decide (it.OID = oid))

/-!
Embedding of the mutex discipline.  Each registry call is executed by one
goroutine; its uses of the agent's `sync.RWMutex` are recorded as a trace of
events, and `muStep` applies Go's documented blocking rules.  Since the
goroutine that would block is the only holder of the lock it is waiting for,
a blocking step can never be released: `none` means the call never returns.
-/

/-- Operations on the agent's `sync.RWMutex`, plus a marker event for the
moment a dynamic producer is invoked. -/
inductive LockEv where
  | lock
  | unlock
  | rlock
  | runlock
  | invokeProducer
  deriving DecidableEq

/-- State of the `sync.RWMutex` as far as one goroutine can observe it. -/
structure MuState where
  writeHeld : Bool
  readers : Nat
  deriving DecidableEq

/-- The unlocked mutex. -/
def mu0 : MuState := { writeHeld := false, readers := 0 }

/-- One mutex event by the single running goroutine.  `Lock` blocks while
any lock is held; `RLock` blocks while the write lock is held; unlocking a
lock that is not held is a runtime fault.  `none` therefore means the call
blocks forever (nobody else can release what this goroutine holds) or
faults. -/
def muStep : MuState → LockEv → Option MuState
  | s, .invokeProducer => some s
  | s, .lock =>
      if s.writeHeld || s.readers != 0 then none
      else some { writeHeld := true, readers := s.readers }
  | s, .unlock =>
      if s.writeHeld then some { writeHeld := false, readers := s.readers } else none
  | s, .rlock =>
      if s.writeHeld then none else some { s with readers := s.readers + 1 }
  | s, .runlock =>
      match s.readers with
      | 0 => none
      | r + 1 => some { s with readers := r }

/-- Run a whole trace; `none` as soon as one step blocks. -/
def runMu : MuState → List LockEv → Option MuState
  | s, [] => some s
  | s, e :: evs =>
      match muStep s e with
      | none => none
      | some s1 => runMu s1 evs

/-- Mutex trace of `registerHandlers` (`agent.go` lines 230-231): `RLock`,
the rebuild (which only constructs closures and never invokes one), then the
deferred `RUnlock`. -/
def registerHandlersLockEvs : List LockEv := [LockEv.rlock, LockEv.runlock]

/-- Mutex trace of `RegisterAbsolute` (`agent.go` lines 145-158): `Lock`,
the map update, a nested `registerHandlers` call when the server has been
started, then the deferred `Unlock`. -/
def registerAbsoluteLockEvs (started : Bool) : List LockEv :=
  [LockEv.lock] ++ (if started then registerHandlersLockEvs else []) ++ [LockEv.unlock]

/-- Mutex trace of `RegisterStaticAbsolute` (`agent.go` lines 171-184), same
shape as `RegisterAbsolute`. -/
def registerStaticAbsoluteLockEvs (started : Bool) : List LockEv :=
  [LockEv.lock] ++ (if started then registerHandlersLockEvs else []) ++ [LockEv.unlock]

/-- Mutex trace of `UnregisterAbsolute` (`agent.go` lines 197-225): `Lock`;
when at least one entry was deleted (`found`) and the server has been
started, the nested `registerHandlers`; then the deferred `Unlock`. -/
def unregisterAbsoluteLockEvs (started found : Bool) : List LockEv :=
  [LockEv.lock] ++ (if found then (if started then registerHandlersLockEvs else []) else [])
    ++ [LockEv.unlock]

/-- Mutex trace of one `OnGet` call through a binding: the closure bodies
(`agent.go` lines 248-257 and 271-274) perform no mutex operation at all;
the dynamic one invokes the captured handler once. -/
def onGetLockEvs {V H : Type} (it : PDUValueControlItem V H) : List LockEv :=
  match it.src with
  | .dynamic _ => [LockEv.invokeProducer]
  | .static _ => []

/-- The mutex states at which the `invokeProducer` events of a trace run,
in order (events after a blocking step never run). -/
def producerStates : MuState → List LockEv → List MuState
  | _, [] => []
  | s, e :: evs =>
      match muStep s e with
      | none => []
      | some s1 => (if e = LockEv.invokeProducer then [s] else []) ++ producerStates s1 evs

/-- The property claimed of a trace: every producer invocation in it runs
while the read lock is held in shared mode (at least one reader, no
writer). -/
def producersReadLocked (evs : List LockEv) : Prop :=
  ∀ s ∈ producerStates mu0 evs, s.writeHeld = false ∧ 0 < s.readers

/-!
Helper lemmas about the association-list maps and the registry operations.
-/

theorem mapLookup_mapErase_self {α : Type} (m : SMap α) (k : String) :
    mapLookup (mapErase m k) k = none := by
  induction m with
  | nil => rfl
  | cons p m ih =>
      by_cases h : p.1 = k <;> simp [mapErase, mapLookup, h, ih]

theorem mapLookup_mapErase_ne {α : Type} (m : SMap α) (k k' : String) (h : k' ≠ k) :
    mapLookup (mapErase m k) k' = mapLookup m k' := by
  have hkk : ¬ k = k' := fun hc => h hc.symm
  induction m with
  | nil => rfl
  | cons p m ih =>
      by_cases hp : p.1 = k
      · simp [mapErase, mapLookup, hp, hkk, ih]
      · by_cases hp' : p.1 = k' <;> simp [mapErase, mapLookup, hp, hp', h, ih]

theorem mapLookup_append_of_none {α : Type} (m1 m2 : SMap α) (k : String)
    (h : mapLookup m1 k = none) : mapLookup (m1 ++ m2) k = mapLookup m2 k := by
  induction m1 with
  | nil => rfl
  | cons p m ih =>
      by_cases hp : p.1 = k
      · simp [mapLookup, hp] at h
      · simp [mapLookup, hp] at h ⊢
        exact ih h

theorem mapLookup_mapInsert_self {α : Type} (m : SMap α) (k : String) (v : α) :
    mapLookup (mapInsert m k v) k = some v := by
  unfold mapInsert
  rw [mapLookup_append_of_none _ _ _ (mapLookup_mapErase_self m k)]
  simp [mapLookup]

theorem mapLookup_mapInsert_ne {α : Type} (m : SMap α) (k k' : String) (v : α)
    (h : k' ≠ k) : mapLookup (mapInsert m k v) k' = mapLookup m k' := by
  have hkk : ¬ k = k' := fun hc => h hc.symm
  unfold mapInsert
  induction m with
  | nil => simp [mapErase, mapLookup, hkk]
  | cons p m ih =>
      by_cases hp : p.1 = k
      · simp [mapErase, mapLookup, hp, hkk, ih]
      · by_cases hp' : p.1 = k' <;> simp [mapErase, mapLookup, hp, hp', h, ih]

theorem filterKey_mapErase {α : Type} (m : SMap α) (k : String) :
    (mapErase m k).filter (fun p => decide (p.1 = k)) = [] := by
  induction m with
  | nil => rfl
  | cons p m ih =>
      by_cases h : p.1 = k <;> simp [mapErase, h, List.filter, ih]

theorem filterKey_mapInsert {α : Type} (m : SMap α) (k : String) (v : α) :
    (mapInsert m k v).filter (fun p => decide (p.1 = k)) = [(k, v)] := by
  unfold mapInsert
  rw [List.filter_append, filterKey_mapErase]
  simp [List.filter]

theorem filterKey_mapInsert_ne {α : Type} (m : SMap α) (k k' : String) (v : α)
    (h : k' ≠ k) :
    (mapInsert m k v).filter (fun p => decide (p.1 = k')) =
      m.filter (fun p => decide (p.1 = k')) := by
  have hkk : ¬ k = k' := fun hc => h hc.symm
  unfold mapInsert
  rw [List.filter_append]
  have h2 : ([(k, v)] : SMap α).filter (fun p => decide (p.1 = k')) = [] := by
    simp [List.filter, hkk]
  rw [h2, List.append_nil]
  induction m with
  | nil => rfl
  | cons p m ih =>
      by_cases hp : p.1 = k
      · simp [mapErase, List.filter, hp, hkk, ih]
      · by_cases hp' : p.1 = k' <;> simp [mapErase, List.filter, hp, hp', h, ih]

theorem filter_map_comm {α β : Type} (f : α → β) (q : β → Bool) (l : List α) :
    (l.map f).filter q = (l.filter (fun x => q (f x))).map f := by
  induction l with
  | nil => rfl
  | cons x l ih =>
      by_cases h : q (f x) = true <;> simp [List.filter, h, ih]

theorem lookup_foldl_insert_const {α : Type} (l : List (String × α))
    (init : SMap String) (c k : String) :
    mapLookup (l.foldl (fun r p => mapInsert r p.1 c) init) k =
      if (mapLookup l k).isSome then some c else mapLookup init k := by
  induction l generalizing init with
  | nil => simp [mapLookup]
  | cons p l ih =>
      rw [List.foldl_cons, ih]
      by_cases hp : p.1 = k
      · subst hp
        by_cases hl : (mapLookup l p.1).isSome
        · simp [mapLookup, hl]
        · simp [mapLookup, hl, mapLookup_mapInsert_self]
      · have hne : k ≠ p.1 := fun hc => hp hc.symm
        simp [mapLookup, hp, mapLookup_mapInsert_ne _ _ _ _ hne]

/-- What `ListOIDs` reports for one OID: `"static"` whenever a static entry
exists (the static loop runs second and overwrites), otherwise `"dynamic"`
whenever a dynamic entry exists, otherwise nothing. -/
theorem listTag_eq {V H : Type} (a : Agent V H) (k : String) :
    listTag a k =
      if (mapLookup a.staticVals k).isSome then some "static"
      else if (mapLookup a.handlers k).isSome then some "dynamic"
      else none := by
  unfold listTag ListOIDs
  rw [lookup_foldl_insert_const, lookup_foldl_insert_const]
  simp [mapLookup]

theorem registerHandlers_handlers {V H : Type} (a : Agent V H) :
    (registerHandlers a).handlers = a.handlers := by
  unfold registerHandlers
  split <;> rfl

theorem registerHandlers_staticVals {V H : Type} (a : Agent V H) :
    (registerHandlers a).staticVals = a.staticVals := by
  unfold registerHandlers
  split <;> rfl

theorem registerHandlers_oidRoot {V H : Type} (a : Agent V H) :
    (registerHandlers a).oidRoot = a.oidRoot := by
  unfold registerHandlers
  split <;> rfl

theorem RegisterAbsolute_fst_handlers {V H : Type} (a : Agent V H) (oid : String)
    (t : Asn1BER) (h : H) :
    ((RegisterAbsolute a oid t h).1).handlers = mapInsert a.handlers oid h := by
  unfold RegisterAbsolute
  dsimp only
  split
  · rw [registerHandlers_handlers]
  · rfl

theorem RegisterAbsolute_fst_staticVals {V H : Type} (a : Agent V H) (oid : String)
    (t : Asn1BER) (h : H) :
    ((RegisterAbsolute a oid t h).1).staticVals = a.staticVals := by
  unfold RegisterAbsolute
  dsimp only
  split
  · rw [registerHandlers_staticVals]
  · rfl

theorem RegisterAbsolute_fst_oidRoot {V H : Type} (a : Agent V H) (oid : String)
    (t : Asn1BER) (h : H) :
    ((RegisterAbsolute a oid t h).1).oidRoot = a.oidRoot := by
  unfold RegisterAbsolute
  dsimp only
  split
  · rw [registerHandlers_oidRoot]
  · rfl

theorem RegisterAbsolute_snd {V H : Type} (a : Agent V H) (oid : String)
    (t : Asn1BER) (h : H) : (RegisterAbsolute a oid t h).2 = none := rfl

theorem RegisterStaticAbsolute_fst_staticVals {V H : Type} (a : Agent V H) (oid : String)
    (t : Asn1BER) (v : V) :
    ((RegisterStaticAbsolute a oid t v).1).staticVals = mapInsert a.staticVals oid v := by
  unfold RegisterStaticAbsolute
  dsimp only
  split
  · rw [registerHandlers_staticVals]
  · rfl

theorem RegisterStaticAbsolute_fst_handlers {V H : Type} (a : Agent V H) (oid : String)
    (t : Asn1BER) (v : V) :
    ((RegisterStaticAbsolute a oid t v).1).handlers = a.handlers := by
  unfold RegisterStaticAbsolute
  dsimp only
  split
  · rw [registerHandlers_handlers]
  · rfl

theorem RegisterStaticAbsolute_fst_oidRoot {V H : Type} (a : Agent V H) (oid : String)
    (t : Asn1BER) (v : V) :
    ((RegisterStaticAbsolute a oid t v).1).oidRoot = a.oidRoot := by
  unfold RegisterStaticAbsolute
  dsimp only
  split
  · rw [registerHandlers_oidRoot]
  · rfl

theorem RegisterStaticAbsolute_snd {V H : Type} (a : Agent V H) (oid : String)
    (t : Asn1BER) (v : V) : (RegisterStaticAbsolute a oid t v).2 = none := rfl

theorem Start_serverOIDs {V H : Type} (a : Agent V H) :
    (Start a).serverOIDs =
      a.handlers.map (fun p => buildDynamicItem p.1 p.2)
        ++ a.staticVals.map (fun p => buildStaticItem p.1 p.2) := by
  unfold Start registerHandlers
  simp

theorem filterKey_of_lookup_none {α : Type} (m : SMap α) (k : String)
    (h : mapLookup m k = none) : m.filter (fun p => decide (p.1 = k)) = [] := by
  induction m with
  | nil => rfl
  | cons p m ih =>
      by_cases hp : p.1 = k
      · simp [mapLookup, hp] at h
      · simp [mapLookup, hp] at h
        simp [List.filter, hp, ih h]

/-- Characterization of `UnregisterAbsolute` when at least one entry
exists: both collections lose the OID and the returned error is `nil`. -/
theorem UnregisterAbsolute_found {V H : Type} (a : Agent V H) (oid : String)
    (h : ((mapLookup a.handlers oid).isSome || (mapLookup a.staticVals oid).isSome) = true) :
    ((UnregisterAbsolute a oid).1).handlers = mapErase a.handlers oid
    ∧ ((UnregisterAbsolute a oid).1).staticVals = mapErase a.staticVals oid
    ∧ (UnregisterAbsolute a oid).2 = none := by
  unfold UnregisterAbsolute
  dsimp only
  rw [if_pos h]
  refine ⟨?_, ?_, rfl⟩
  · dsimp only
    split
    · rw [registerHandlers_handlers]
    · rfl
  · dsimp only
    split
    · rw [registerHandlers_staticVals]
    · rfl

/-- Characterization of `UnregisterAbsolute` when no entry exists: the
state is returned untouched together with the not-found error. -/
theorem UnregisterAbsolute_notfound {V H : Type} (a : Agent V H) (oid : String)
    (h : ((mapLookup a.handlers oid).isSome || (mapLookup a.staticVals oid).isSome) = false) :
    UnregisterAbsolute a oid = (a, some ("OID not found: " ++ oid)) := by
  unfold UnregisterAbsolute
  dsimp only
  rw [if_neg (by simp [h])]

/-!
Concrete fixtures used by counterexamples and witnesses (static values and
handlers instantiated at `Nat`, so everything evaluates). -/

/-- The configuration of the spec's end-to-end scenario: PEN 12345, the
other fields left empty so the defaults apply. -/
def cfg12345 : Config := { PEN := 12345, ListenAddr := "", Community := "" }

/-- The agent `NewAgent` produces for `cfg12345`. -/
def agent12345 : Agent Nat Nat :=
  { config := { PEN := 12345, ListenAddr := "0.0.0.0:161", Community := "public" }
    oidRoot := "1.3.6.1.4.1.12345"
    handlers := []
    staticVals := []
    serverStarted := false
    serverOIDs := [] }

/-- The enterprise OID used by the concrete scenarios. -/
def oidW : String := "1.3.6.1.4.1.12345.1.1.0"

/-- `agent12345` after registering `oidW` statically (value `5`) and then
dynamically (handler token `7`): the most recent registration is the
dynamic one. -/
def staticThenDynamic : Agent Nat Nat :=
  (RegisterAbsolute
    ((RegisterStaticAbsolute agent12345 oidW Asn1BER.OctetString 5).1)
    oidW Asn1BER.Integer 7).1

/-- Whether agent construction failed with the configuration error of
`agent.go` line 48. -/
def isConfigurationError {V H : Type} : Except String (Agent V H) → Bool
  | Except.error msg => msg == "PEN (Private Enterprise Number) is required"
  | Except.ok _ => false

/-- Whether agent construction produced an agent. -/
def producedAgent {V H : Type} : Except String (Agent V H) → Bool
  | Except.ok _ => true
  | Except.error _ => false

/-!
The claims.
-/

/-- C7: `NewAgent` returns the configuration error, and no agent, exactly
when the configured PEN is zero; for every configuration with a non-zero
PEN construction succeeds and no such error is raised. -/
theorem c7_new_agent_pen_validation {V H : Type} (cfg : Config) :
    isConfigurationError (NewAgent (V := V) (H := H) cfg) = decide (cfg.PEN = 0)
    ∧ producedAgent (NewAgent (V := V) (H := H) cfg) = decide (cfg.PEN ≠ 0) := by
  unfold NewAgent
  by_cases h : cfg.PEN = 0 <;>
    simp [h, isConfigurationError, producedAgent]

/-- C8: for every configuration with a non-zero PEN, the agent built by
`NewAgent` carries the enterprise prefix `"1.3.6.1.4.1." ++ PEN` (decimal),
and registering a relative fragment `r` places the entry at
`prefix ++ "." ++ r`. -/
theorem c8_enterprise_prefix_derivation {V H : Type} (cfg : Config) (a : Agent V H)
    (r : String) (t : Asn1BER) (h : H)
    (hPEN : ¬ cfg.PEN = 0) (hA : NewAgent cfg = Except.ok a) :
    GetOidRoot a = "1.3.6.1.4.1." ++ Nat.repr cfg.PEN
    ∧ mapLookup ((Register a r t h).1).handlers (GetOidRoot a ++ "." ++ r) = some h := by
  constructor
  · unfold NewAgent at hA
    rw [if_neg hPEN] at hA
    injection hA with h1
    rw [← h1]
    rfl
  · show mapLookup ((RegisterAbsolute a (a.oidRoot ++ "." ++ r) t h).1).handlers
      (a.oidRoot ++ "." ++ r) = some h
    rw [RegisterAbsolute_fst_handlers]
    exact mapLookup_mapInsert_self _ _ _

/-- Witness for C8 at the spec's concrete instance: PEN `12345` yields the
prefix `"1.3.6.1.4.1.12345"` and the relative fragment `"1.1.0"` resolves to
`"1.3.6.1.4.1.12345.1.1.0"`. -/
theorem c8_witness :
    GetOidRoot agent12345 = "1.3.6.1.4.1.12345"
    ∧ mapLookup ((Register agent12345 "1.1.0" Asn1BER.OctetString 0).1).handlers
        "1.3.6.1.4.1.12345.1.1.0" = some 0 := by
  have h := c8_enterprise_prefix_derivation cfg12345 agent12345 "1.1.0"
    Asn1BER.OctetString 0 (by decide) rfl
  exact ⟨h.1, h.2⟩

/-- C9: `RegisterStaticAbsolute` leaves the dynamic-handler collection and
the enterprise prefix unchanged; `RegisterAbsolute` leaves the static-value
collection and the enterprise prefix unchanged. -/
theorem c9_registration_frame {V H : Type} (a : Agent V H) (oid : String)
    (t : Asn1BER) (v : V) (h : H) :
    ((RegisterStaticAbsolute a oid t v).1).handlers = a.handlers
    ∧ ((RegisterStaticAbsolute a oid t v).1).oidRoot = a.oidRoot
    ∧ ((RegisterAbsolute a oid t h).1).staticVals = a.staticVals
    ∧ ((RegisterAbsolute a oid t h).1).oidRoot = a.oidRoot :=
  ⟨RegisterStaticAbsolute_fst_handlers a oid t v,
   RegisterStaticAbsolute_fst_oidRoot a oid t v,
   RegisterAbsolute_fst_staticVals a oid t h,
   RegisterAbsolute_fst_oidRoot a oid t h⟩

/-- C1, counterexample: after registering the same OID statically and then
dynamically, the registry does not hold exactly one entry for it — both
collections hold one, for a total of two — and `ListOIDs` tags the OID
`"static"` even though the most recent registration was dynamic. -/
theorem c1_counterexample :
    countEntries staticThenDynamic oidW ≠ 1
    ∧ countEntries staticThenDynamic oidW = 2
    ∧ listTag staticThenDynamic oidW = some "static" := by
  refine ⟨by decide, by decide, by decide⟩

/-- C1, amended: re-registering an OID within the same variant leaves
exactly one entry, holding the most recent registration, and `ListOIDs`
tags it with that variant.  Registering the same OID in the other variant,
however, leaves one entry in each collection (two in total), and `ListOIDs`
then reports `"static"` regardless of which registration was most
recent. -/
theorem c1_amended_overwrite {V H : Type} (a : Agent V H) (oid : String)
    (t1 t2 : Asn1BER) (v1 v2 : V) (h1 h2 : H)
    (hs : mapLookup a.staticVals oid = none)
    (hh : mapLookup a.handlers oid = none) :
    (countEntries ((RegisterStaticAbsolute ((RegisterStaticAbsolute a oid t1 v1).1) oid t2 v2).1) oid = 1
     ∧ mapLookup ((RegisterStaticAbsolute ((RegisterStaticAbsolute a oid t1 v1).1) oid t2 v2).1).staticVals oid = some v2
     ∧ listTag ((RegisterStaticAbsolute ((RegisterStaticAbsolute a oid t1 v1).1) oid t2 v2).1) oid = some "static")
    ∧ (countEntries ((RegisterAbsolute ((RegisterAbsolute a oid t1 h1).1) oid t2 h2).1) oid = 1
     ∧ mapLookup ((RegisterAbsolute ((RegisterAbsolute a oid t1 h1).1) oid t2 h2).1).handlers oid = some h2
     ∧ listTag ((RegisterAbsolute ((RegisterAbsolute a oid t1 h1).1) oid t2 h2).1) oid = some "dynamic")
    ∧ (countEntries ((RegisterAbsolute ((RegisterStaticAbsolute a oid t1 v1).1) oid t2 h2).1) oid = 2
     ∧ listTag ((RegisterAbsolute ((RegisterStaticAbsolute a oid t1 v1).1) oid t2 h2).1) oid = some "static")
    ∧ (countEntries ((RegisterStaticAbsolute ((RegisterAbsolute a oid t1 h1).1) oid t2 v2).1) oid = 2
     ∧ listTag ((RegisterStaticAbsolute ((RegisterAbsolute a oid t1 h1).1) oid t2 v2).1) oid = some "static") := by
  simp only [countEntries, listTag_eq,
    RegisterStaticAbsolute_fst_staticVals, RegisterStaticAbsolute_fst_handlers,
    RegisterAbsolute_fst_handlers, RegisterAbsolute_fst_staticVals,
    filterKey_mapInsert, mapLookup_mapInsert_self,
    filterKey_of_lookup_none _ _ hs, filterKey_of_lookup_none _ _ hh, hs, hh]
  simp

/-- Witness for C1 amended, at the fixture agent: the static-then-dynamic
sequence leaves two entries. -/
theorem c1_amended_witness :
    countEntries ((RegisterAbsolute ((RegisterStaticAbsolute agent12345 oidW
      Asn1BER.OctetString 5).1) oidW Asn1BER.Integer 8).1) oidW = 2 := by
  have h := c1_amended_overwrite agent12345 oidW Asn1BER.OctetString Asn1BER.Integer
    5 6 7 8 rfl rfl
  exact h.2.2.1.1

/-- C6: `UnregisterAbsolute` errors exactly when neither collection holds
the OID, in which case the state is returned untouched; otherwise it
removes whichever entries exist and returns `nil`.  The registration
operations never surface an error. -/
theorem c6_unregister_error_semantics {V H : Type} (a : Agent V H) (oid : String) :
    ((UnregisterAbsolute a oid).2.isSome
      = ((mapLookup a.handlers oid).isNone && (mapLookup a.staticVals oid).isNone))
    ∧ ((UnregisterAbsolute a oid).2.isSome = true →
        UnregisterAbsolute a oid = (a, some ("OID not found: " ++ oid)))
    ∧ ((UnregisterAbsolute a oid).2 = none →
        mapLookup ((UnregisterAbsolute a oid).1).handlers oid = none
        ∧ mapLookup ((UnregisterAbsolute a oid).1).staticVals oid = none)
    ∧ (∀ (t : Asn1BER) (h : H), (RegisterAbsolute a oid t h).2 = none)
    ∧ (∀ (t : Asn1BER) (v : V), (RegisterStaticAbsolute a oid t v).2 = none) := by
  by_cases hf : ((mapLookup a.handlers oid).isSome || (mapLookup a.staticVals oid).isSome) = true
  · obtain ⟨e1, e2, e3⟩ := UnregisterAbsolute_found a oid hf
    refine ⟨?_, ?_, ?_, fun t h => rfl, fun t v => rfl⟩
    · rw [e3]
      simp only [Option.isSome_none]
      cases hH : (mapLookup a.handlers oid) <;> cases hS : (mapLookup a.staticVals oid) <;>
        simp [hH, hS] at hf ⊢
    · intro hcontra
      rw [e3] at hcontra
      simp at hcontra
    · intro _
      rw [e1, e2]
      exact ⟨mapLookup_mapErase_self _ _, mapLookup_mapErase_self _ _⟩
  · have hf' : ((mapLookup a.handlers oid).isSome || (mapLookup a.staticVals oid).isSome) = false := by
      simpa using hf
    have e := UnregisterAbsolute_notfound a oid hf'
    refine ⟨?_, fun _ => e, ?_, fun t h => rfl, fun t v => rfl⟩
    · rw [e]
      cases hH : (mapLookup a.handlers oid) <;> cases hS : (mapLookup a.staticVals oid) <;>
        simp [hH, hS] at hf' ⊢
    · intro hcontra
      rw [e] at hcontra
      simp at hcontra

/-- Witness for C6 at a concrete input: unregistering an OID absent from the
fresh fixture agent errors and leaves the agent untouched. -/
theorem c6_witness :
    UnregisterAbsolute agent12345 oidW
      = (agent12345, some ("OID not found: " ++ oidW)) := by
  have h := c6_unregister_error_semantics agent12345 oidW
  exact h.2.1 (by decide)

/-- C10: when an OID is present in both the static and the dynamic
collection, one `UnregisterAbsolute` call removes both entries and returns
`nil`. -/
theorem c10_unregister_removes_both {V H : Type} (a : Agent V H) (oid : String)
    (v : V) (h : H)
    (hsv : mapLookup a.staticVals oid = some v)
    (hh : mapLookup a.handlers oid = some h) :
    (UnregisterAbsolute a oid).2 = none
    ∧ mapLookup ((UnregisterAbsolute a oid).1).handlers oid = none
    ∧ mapLookup ((UnregisterAbsolute a oid).1).staticVals oid = none := by
  have hf : ((mapLookup a.handlers oid).isSome || (mapLookup a.staticVals oid).isSome) = true := by
    rw [hh, hsv]
    rfl
  obtain ⟨e1, e2, e3⟩ := UnregisterAbsolute_found a oid hf
  rw [e1, e2]
  exact ⟨e3, mapLookup_mapErase_self _ _, mapLookup_mapErase_self _ _⟩

/-- Witness for C10: the fixture agent holding both a static and a dynamic
entry at the same OID is fully cleared by one unregistration. -/
theorem c10_witness :
    (UnregisterAbsolute staticThenDynamic oidW).2 = none
    ∧ mapLookup ((UnregisterAbsolute staticThenDynamic oidW).1).handlers oidW = none
    ∧ mapLookup ((UnregisterAbsolute staticThenDynamic oidW).1).staticVals oidW = none :=
  c10_unregister_removes_both staticThenDynamic oidW 5 7 (by decide) (by decide)

/-- C2 (code side): after `Start` has returned successfully the mutation
operations self-deadlock.  Each of them takes the write lock and, because
the server exists, calls `registerHandlers`, which takes the read lock of
the same `sync.RWMutex` on the same goroutine; Go's `RLock` blocks while
the write lock is held, and the only goroutine that could release it is the
blocked one, so the call never returns (`runMu … = none`).  Before `Start`
the same calls complete and release the mutex (`some mu0`). -/
theorem c2_mutation_deadlocks_after_start :
    runMu mu0 (registerAbsoluteLockEvs true) = none
    ∧ runMu mu0 (registerStaticAbsoluteLockEvs true) = none
    ∧ runMu mu0 (unregisterAbsoluteLockEvs true true) = none
    ∧ runMu mu0 (registerAbsoluteLockEvs false) = some mu0
    ∧ runMu mu0 (registerStaticAbsoluteLockEvs false) = some mu0
    ∧ runMu mu0 (unregisterAbsoluteLockEvs false true) = some mu0
    ∧ runMu mu0 (unregisterAbsoluteLockEvs true false) = some mu0 := by
  refine ⟨rfl, rfl, rfl, rfl, rfl, rfl, rfl⟩

/-- C3, counterexample: the mutex trace of a GET evaluation through a
dynamic binding invokes the producer while no read lock is held, refuting
the claim that every producer invocation runs with the read lock held. -/
theorem c3_counterexample :
    ¬ producersReadLocked (onGetLockEvs (buildDynamicItem (V := Nat) (H := Nat)
      "1.3.6.1.4.1.12345.2.1.0" 7)) := by
  unfold producersReadLocked
  decide

/-- C3, amended: a GET evaluation through a dynamic binding invokes the
producer exactly once, with the registry mutex completely free (no reader
and no writer — `mu0`); a static GET invokes no producer; and the only
place the read lock is held, the `registerHandlers` rebuild, never invokes
a producer. -/
theorem c3_amended_producer_unlocked {V H : Type} (oid : String) (handler : H) (value : V) :
    producerStates mu0 (onGetLockEvs (buildDynamicItem (V := V) oid handler)) = [mu0]
    ∧ producerStates mu0 (onGetLockEvs (buildStaticItem (H := H) oid value)) = []
    ∧ producerStates mu0 registerHandlersLockEvs = []
    ∧ mu0.readers = 0
    ∧ mu0.writeHeld = false :=
  ⟨rfl, rfl, rfl, rfl, rfl⟩

/-- The agent of the C4 scenario: a dynamic OID registered with the BER
type `gosnmp.Integer`, then `Start`. -/
def agentC4 : Agent Nat Nat :=
  Start ((RegisterAbsolute agent12345 "1.3.6.1.4.1.12345.2.1.0" Asn1BER.Integer 7).1)

/-- C4 (code side): the binding handed to the transport for an OID that was
registered with type `Integer` carries the type tag `OctetString` — the
registered type is logged and discarded (`agent.go` lines 247 and 270
hardcode `gosnmp.OctetString`), so no binding of this agent carries
`Integer` at all. -/
theorem c4_binding_type_hardcoded :
    (dynamicItemsFor agentC4 "1.3.6.1.4.1.12345.2.1.0").map
        (fun it => it.TypeBER) = [Asn1BER.OctetString]
    ∧ Asn1BER.OctetString ≠ Asn1BER.Integer
    ∧ agentC4.serverOIDs.filter (fun it => decide (it.TypeBER = Asn1BER.Integer)) = [] := by
  refine ⟨by decide, by decide, by decide⟩

theorem runGets_staticItem {V H W E : Type} (invoke : H → W → Except E V × W)
    (oid : String) (v : V) (n : Nat) (w : W) :
    runGets invoke (buildStaticItem (H := H) oid v) n w
      = (List.replicate n (Except.ok v), w) := by
  induction n generalizing w with
  | zero => rfl
  | succ n ih =>
      have hr : runOnGet invoke (buildStaticItem (H := H) oid v) w = (Except.ok v, w) := rfl
      simp only [runGets, hr, ih, List.replicate]

theorem runGets_dynamicItem {V H W E : Type} (invoke : H → W → Except E V × W)
    (oid : String) (h : H) (n : Nat) (w : W) :
    runGets invoke (buildDynamicItem (V := V) oid h) n w
      = runProducer invoke h n w := by
  induction n generalizing w with
  | zero => rfl
  | succ n ih =>
      have hr : runOnGet invoke (buildDynamicItem (V := V) oid h) w = invoke h w := rfl
      simp only [runGets, runProducer, hr, ih]

/-- C5: after a static registration the transport holds exactly one static
binding for the OID, wrapping the registered value, and any number of GET
evaluations through it return that value with no error and no effect on
any producer; after a dynamic registration the transport holds exactly one
dynamic binding for the OID, wrapping the registered producer, and `n` GET
evaluations through it behave exactly like `n` direct invocations of the
producer — one fresh invocation per call, its value or error forwarded
verbatim, no caching between calls. -/
theorem c5_get_semantics {V H W E : Type} (invoke : H → W → Except E V × W)
    (a : Agent V H) (oid : String) (t : Asn1BER) (v : V) (h : H) (n : Nat) (w : W) :
    (staticItemsFor (Start ((RegisterStaticAbsolute a oid t v).1)) oid
        = [buildStaticItem oid v]
      ∧ runGets invoke (buildStaticItem (H := H) oid v) n w
        = (List.replicate n (Except.ok v), w))
    ∧ (dynamicItemsFor (Start ((RegisterAbsolute a oid t h).1)) oid
        = [buildDynamicItem oid h]
      ∧ runGets invoke (buildDynamicItem (V := V) oid h) n w
        = runProducer invoke h n w) := by
  refine ⟨⟨?_, runGets_staticItem invoke oid v n w⟩,
          ⟨?_, runGets_dynamicItem invoke oid h n w⟩⟩
  · unfold staticItemsFor
    rw [Start_serverOIDs]
    rw [RegisterStaticAbsolute_fst_handlers, RegisterStaticAbsolute_fst_staticVals]
    rw [List.filter_append, filter_map_comm, filter_map_comm]
    simp only [buildDynamicItem, buildStaticItem, OnGetSrc.isStaticB, Bool.false_and,
      Bool.true_and, List.filter_false, List.nil_append]
    rw [filterKey_mapInsert]
    rfl
  · unfold dynamicItemsFor
    rw [Start_serverOIDs]
    rw [RegisterAbsolute_fst_handlers, RegisterAbsolute_fst_staticVals]
    rw [List.filter_append, filter_map_comm, filter_map_comm]
    simp only [buildDynamicItem, buildStaticItem, OnGetSrc.isStaticB, Bool.not_false,
      Bool.not_true, Bool.false_and, Bool.true_and, List.filter_false, List.append_nil]
    rw [filterKey_mapInsert]
    rfl

end LzSnmp
